import Mathlib

/-!
Verification of the Smart Data Exploration Agent repository
(`demo_runner.py` and `streamlit_app.py`) against its specification.

The fixed SQL statements of `demo_runner.QUERIES` and
`streamlit_app.QUERY_MAP` are embedded verbatim as string literals; a
small lexical scanner (the spec itself asks only for a best-effort
lexical scan) settles the claims about leading verbs and about the
identifiers the statements reference.
-/

namespace SmartData

/-- A token of the lexical scan over a SQL statement: an identifier,
a numeric literal, or a single punctuation character.  Contents of
single-quoted SQL string literals are skipped entirely. -/
inductive Tok where
  | id (s : String)
  | num
  | sym (c : Char)
  deriving DecidableEq, Repr

def isIdentStart (c : Char) : Bool := c.isAlpha || c = '_'

def isIdentChar (c : Char) : Bool := c.isAlphanum || c = '_'

/-- Mode of the scanner: ordinary text, inside a quoted SQL string
literal, inside an identifier (accumulated characters reversed), or
inside a numeric literal. -/
inductive LexMode where
  | norm
  | instr
  | inid (acc : List Char)
  | innum

/-- One pass, character by character, over the statement text. -/
def lexGo : LexMode → List Char → List Tok
  | .norm, [] => []
  | .norm, c :: cs =>
    if c = '\'' then lexGo .instr cs
    else if isIdentStart c then lexGo (.inid [c]) cs
    else if c.isDigit then lexGo .innum cs
    else if c.isWhitespace then lexGo .norm cs
    else Tok.sym c :: lexGo .norm cs
  | .instr, [] => []
  | .instr, c :: cs =>
    if c = '\'' then lexGo .norm cs else lexGo .instr cs
  | .inid acc, [] => [Tok.id (String.mk acc.reverse)]
  | .inid acc, c :: cs =>
    if isIdentChar c then lexGo (.inid (c :: acc)) cs
    else
      Tok.id (String.mk acc.reverse) ::
        (if c = '\'' then lexGo .instr cs
         else if c.isWhitespace then lexGo .norm cs
         else Tok.sym c :: lexGo .norm cs)
  | .innum, [] => [Tok.num]
  | .innum, c :: cs =>
    if c.isDigit || c = '.' then lexGo .innum cs
    else
      Tok.num ::
        (if c = '\'' then lexGo .instr cs
         else if isIdentStart c then lexGo (.inid [c]) cs
         else if c.isWhitespace then lexGo .norm cs
         else Tok.sym c :: lexGo .norm cs)

def sqlLex (sql : String) : List Tok := lexGo .norm sql.data

/-- The first word of a statement, after leading whitespace. -/
def leadingWord (sql : String) : String :=
  String.mk ((sql.data.dropWhile Char.isWhitespace).takeWhile isIdentChar)

/-- `demo_runner.QUERIES`, embedded verbatim (triple-quoted Python
strings, so each value keeps its newlines and indentation). -/
def QUERIES : List (String × String) :=
  [("revenue_by_month", "\n        SELECT strftime('%Y-%m', date) AS year_month, SUM(revenue) AS total_revenue\n        FROM sales\n        GROUP BY year_month\n        ORDER BY year_month;\n    "),
   ("top5_customers", "\n        SELECT customer_id, SUM(revenue) AS total_revenue\n        FROM sales\n        GROUP BY customer_id\n        ORDER BY total_revenue DESC\n        LIMIT 5;\n    "),
   ("category_contribution", "\n        SELECT product_category, SUM(revenue) AS category_revenue\n        FROM sales\n        GROUP BY product_category\n        ORDER BY category_revenue DESC;\n    "),
   ("aov", "\n        SELECT ROUND(AVG(revenue), 2) AS average_order_value\n        FROM sales;\n    "),
   ("repeat_customers", "\n        WITH counts AS (\n          SELECT customer_id, COUNT(*) AS num_orders\n          FROM sales\n          GROUP BY customer_id\n        )\n        SELECT COUNT(*) AS repeat_customers\n        FROM counts\n        WHERE num_orders >= 2;\n    "),
   ("revenue_by_week", "\n        SELECT strftime('%Y-%W', date) AS year_week, SUM(revenue) AS total_revenue\n        FROM sales\n        GROUP BY year_week\n        ORDER BY year_week;\n    "),
   ("last_14_days", "\n        WITH max_day AS (\n          SELECT DATE(MAX(date)) AS max_date FROM sales\n        )\n        SELECT DATE(date) AS day, SUM(revenue) AS total_revenue\n        FROM sales, max_day\n        WHERE DATE(date) > DATE(max_day.max_date, '-14 days')\n        GROUP BY day\n        ORDER BY day;\n    "),
   ("avg_rev_per_customer_2024", "\n        SELECT ROUND(SUM(revenue) * 1.0 / COUNT(DISTINCT customer_id), 2) AS avg_rev_per_customer\n        FROM sales\n        WHERE strftime('%Y', date) = '2024';\n    "),
   ("best_aov_category", "\n        SELECT product_category, ROUND(AVG(revenue), 2) AS avg_order_value\n        FROM sales\n        GROUP BY product_category\n        ORDER BY avg_order_value DESC\n        LIMIT 1;\n    ")]

/-- `streamlit_app.QUERY_MAP`, embedded verbatim. -/
def QUERY_MAP : List (String × String) :=
  [("Revenue by month", "SELECT strftime('%Y-%m', date) AS year_month, SUM(revenue) AS total_revenue FROM sales GROUP BY year_month ORDER BY year_month;"),
   ("Top 5 customers", "SELECT customer_id, SUM(revenue) AS total_revenue FROM sales GROUP BY customer_id ORDER BY total_revenue DESC LIMIT 5;"),
   ("Category contribution", "SELECT product_category, SUM(revenue) AS category_revenue FROM sales GROUP BY product_category ORDER BY category_revenue DESC;"),
   ("AOV", "SELECT ROUND(AVG(revenue), 2) AS average_order_value FROM sales;"),
   ("Revenue by week", "SELECT strftime('%Y-%W', date) AS year_week, SUM(revenue) AS total_revenue FROM sales GROUP BY year_week ORDER BY year_week;"),
   ("Last 14 days", "WITH max_day AS (SELECT DATE(MAX(date)) AS max_date FROM sales) SELECT DATE(date) AS day, SUM(revenue) AS total_revenue FROM sales, max_day WHERE DATE(date) > DATE(max_day.max_date, '-14 days') GROUP BY day ORDER BY day;")]

/-- Every SQL statement the two modules submit for execution. -/
def allStatements : List String := QUERIES.map Prod.snd ++ QUERY_MAP.map Prod.snd

/-- The SQL keywords appearing in the embedded statements (all written
in upper case in the source). -/
def sqlKeywords : List String :=
  ["SELECT", "WITH", "AS", "FROM", "WHERE", "GROUP", "BY", "ORDER",
   "DESC", "ASC", "LIMIT", "AND", "OR", "ON", "JOIN", "DISTINCT"]

/-- Names introduced by a common table expression: an identifier
directly followed by `AS (`. -/
def cteNames : List Tok → List String
  | .id c :: .id "AS" :: .sym '(' :: rest => c :: cteNames rest
  | _ :: rest => cteNames rest
  | [] => []

/-- Output-column aliases: the identifier directly after `AS`. -/
def aliasNames : List Tok → List String
  | .id "AS" :: .id a :: rest => a :: aliasNames rest
  | _ :: rest => aliasNames rest
  | [] => []

/-- Table references: the comma-separated identifiers of each `FROM`
list (the Bool is whether the scan is inside such a list). -/
def fromTablesGo : Bool → List Tok → List String
  | _, [] => []
  | false, .id "FROM" :: rest => fromTablesGo true rest
  | false, _ :: rest => fromTablesGo false rest
  | true, .id t :: .sym ',' :: rest => t :: fromTablesGo true rest
  | true, .id t :: rest => t :: fromTablesGo false rest
  | true, _ :: rest => fromTablesGo false rest

def fromTables (toks : List Tok) : List String := fromTablesGo false toks

/-- Identifiers used in column position: every identifier that is not a
keyword, not a function name (directly followed by `(`), not next to an
`AS`, and not part of a dotted qualified name.  The first argument is
the previous token. -/
def colRefsGo (prev : Option Tok) : List Tok → List String
  | [] => []
  | t :: rest =>
    match t with
    | .id s =>
      let isKw := sqlKeywords.contains s
      let isFn := match rest with | .sym '(' :: _ => true | _ => false
      let nextAS := match rest with | .id "AS" :: _ => true | _ => false
      let nextDot := match rest with | .sym '.' :: _ => true | _ => false
      let prevAS := prev = some (.id "AS")
      let prevDot := prev = some (.sym '.')
      if isKw || isFn || nextAS || nextDot || prevAS || prevDot then
        colRefsGo (some t) rest
      else s :: colRefsGo (some t) rest
    | _ => colRefsGo (some t) rest

def colRefs (toks : List Tok) : List String := colRefsGo none toks

/-- The qualifiers of dotted references `q.c`. -/
def dotQualifiers : List Tok → List String
  | .id q :: .sym '.' :: rest => q :: dotQualifiers rest
  | _ :: rest => dotQualifiers rest
  | [] => []

/-- Dotted references `q.c` as (qualifier, column) pairs. -/
def dotCols : List Tok → List (String × String)
  | .id q :: .sym '.' :: .id c :: rest => (q, c) :: dotCols rest
  | _ :: rest => dotCols rest
  | [] => []

/-- The fixed demo schema: the single `sales` table. -/
def baseTable : String := "sales"

/-- The fixed demo schema's columns. -/
def baseColumns : List String := ["date", "customer_id", "product_category", "revenue"]

/-- Every table a statement reads (in `FROM` lists or as a dotted
qualifier) is the base table `sales` or a CTE of the same statement. -/
def tablesOk (toks : List Tok) : Bool :=
  (fromTables toks).all (fun t => t == baseTable || (cteNames toks).contains t) &&
  (dotQualifiers toks).all (fun q => q == baseTable || (cteNames toks).contains q)

/-- The column identifiers a statement reads from a base table:
column-position identifiers that are not aliases, CTE names or table
references of the statement, plus dotted columns whose qualifier is not
a CTE. -/
def baseColRefs (toks : List Tok) : List String :=
  (colRefs toks).filter (fun s =>
    !(aliasNames toks).contains s && !(cteNames toks).contains s &&
      !(fromTables toks).contains s)
  ++ (dotCols toks).filterMap (fun qc =>
      if (cteNames toks).contains qc.1 then none else some qc.2)

def colsOk (toks : List Tok) : Bool := (baseColRefs toks).all baseColumns.contains

/-- A statement only reads the `sales` table and its four columns. -/
def stmtOk (sql : String) : Bool :=
  tablesOk (sqlLex sql) && colsOk (sqlLex sql)

/-! ### Relational semantics of `QUERIES['top5_customers']` -/

/-- A row of the `sales` table (`date, customer_id, product_category,
revenue`); revenue values modelled as integers. -/
structure SalesRow where
  date : String
  customer_id : String
  product_category : String
  revenue : Int
  deriving DecidableEq, Repr

/-- `SUM(revenue)` over the rows of one customer. -/
def sumRevenue (rows : List SalesRow) (k : String) : Int :=
  ((rows.filter (fun r => r.customer_id == k)).map SalesRow.revenue).sum

/-- `SELECT customer_id, SUM(revenue) ... GROUP BY customer_id`: one
(customer, total) pair per distinct customer. -/
def groupTotals (rows : List SalesRow) : List (String × Int) :=
  ((rows.map SalesRow.customer_id).dedup).map (fun k => (k, sumRevenue rows k))

/-- `ORDER BY total_revenue DESC`: the first pair's total is at least
the second's. -/
def keyGE (a b : String × Int) : Prop := b.2 ≤ a.2

instance : DecidableRel keyGE := fun a b => inferInstanceAs (Decidable (b.2 ≤ a.2))

instance : IsTotal (String × Int) keyGE := ⟨fun a b => le_total b.2 a.2⟩

instance : IsTrans (String × Int) keyGE := ⟨fun _ _ _ hab hbc => le_trans hbc hab⟩

/-- Evaluation of `QUERIES['top5_customers']` over the contents of the
`sales` table: group by customer, sum revenue, order by total revenue
descending, keep at most 5 rows. -/
def top5_customers_eval (rows : List SalesRow) : List (String × Int) :=
  (List.insertionSort keyGE (groupTotals rows)).take 5

/-! ### `demo_runner.main` -/

/-- An observable effect of `demo_runner.main`. -/
inductive Effect where
  | connect
  | runQuery (name : String)
  | saveCSV (name : String)
  | savePNG (name : String)
  | closeConn
  deriving DecidableEq, Repr

/-- The chart step for one query: `plot_series` saves a PNG only when
the dataframe is not empty. -/
def chartSteps (name : String) (isEmpty : Bool) : List Effect :=
  if isEmpty then [] else [.savePNG name]

/-- The trace of `demo_runner.main`: the effects performed and the
error it raises, if any.  `isEmpty name` tells whether the result of
`QUERIES[name]` is empty (it decides whether a chart is saved). -/
def mainTrace (dbExists : Bool) (isEmpty : String → Bool) :
    List Effect × Option String :=
  if !dbExists then
    ([], some "sales_demo.db not found. Build it before running.")
  else
    ([.connect]
      ++ [.runQuery "revenue_by_month", .saveCSV "revenue_by_month"]
      ++ chartSteps "revenue_by_month" (isEmpty "revenue_by_month")
      ++ [.runQuery "top5_customers", .saveCSV "top5_customers"]
      ++ chartSteps "top5_customers" (isEmpty "top5_customers")
      ++ [.runQuery "category_contribution", .saveCSV "category_contribution"]
      ++ chartSteps "category_contribution" (isEmpty "category_contribution")
      ++ [.runQuery "aov", .saveCSV "aov"]
      ++ [.runQuery "repeat_customers", .saveCSV "repeat_customers"]
      ++ [.runQuery "revenue_by_week", .saveCSV "revenue_by_week"]
      ++ chartSteps "revenue_by_week" (isEmpty "revenue_by_week")
      ++ [.runQuery "last_14_days", .saveCSV "last_14_days"]
      ++ chartSteps "last_14_days" (isEmpty "last_14_days")
      ++ [.runQuery "avg_rev_per_customer_2024", .saveCSV "avg_rev_per_customer_2024"]
      ++ [.runQuery "best_aov_category", .saveCSV "best_aov_category"]
      ++ [.closeConn], none)

/-! ### `streamlit_app` session state and handlers -/

/-- A result table, abstract rows of strings. -/
abbrev DataFrame := List (List String)

/-- The part of `st.session_state` the app reads and writes.  Absent
keys are modelled by `Option`/default-false flags; `initFlag` stands
for the presence of the key `"initialized"`.  The stored connection is
identified by `connId`; the stored router binding (provider, model) is
the pair `LLMRouter(provider=provider, model=model)` was built from,
and the stored agent holds that connection and router. -/
structure AppState where
  initFlag : Bool
  provider : String
  connId : Nat
  routerProvider : String
  routerModel : String
  df_quick : Option DataFrame
  show_quick_viz : Bool
  show_viz : Bool
  generated_sql : Option String
  last_df : Option DataFrame
  success_sql : Bool
  success_df : Bool
  deriving DecidableEq, Repr

/-- The initialization block of `streamlit_app`: runs on every rerun;
rebuilds connection, router and agent when the key `"initialized"` is
absent or the selected provider differs from the stored one.  `none`
models `st.stop()` when the database file is missing; `freshConn` is
the identity of the newly opened connection. -/
def initBlock (st : AppState) (dbExists : Bool) (provider model : String)
    (freshConn : Nat) : Option AppState :=
  if st.initFlag = false ∨ provider ≠ st.provider then
    if dbExists = false then none
    else some { st with
      connId := freshConn,
      routerProvider := provider,
      routerModel := model,
      provider := provider,
      initFlag := true }
  else some st

/-- One execution of SQL against the stored connection: through the
agent's `ask` entry point, or directly by the UI. -/
inductive DBExec where
  | viaAsk (question sql : String)
  | direct (sql : String)
  deriving DecidableEq, Repr

/-- Whether a database read went through `agent.ask`. -/
def isViaAsk : DBExec → Bool
  | .viaAsk _ _ => true
  | .direct _ => false

/-- `QUERY_MAP[choice]` (the selectbox only offers the keys, but a
missing key is modelled as no action). -/
def qmLookup : List (String × String) → String → Option String
  | [], _ => none
  | (k, v) :: rest, c => if k = c then some v else qmLookup rest c

/-- The `'Run quick query'` button handler: executes the chosen fixed
statement directly with `pd.read_sql_query(sql_quick, conn)`, stores
the dataframe in `df_quick` and clears `show_quick_viz`. -/
def runQuickQuery (st : AppState) (choice : String) (res : DataFrame) :
    AppState × List DBExec :=
  match qmLookup QUERY_MAP choice with
  | some sql => ({ st with df_quick := some res, show_quick_viz := false }, [.direct sql])
  | none => (st, [])

/-- What `st.session_state.agent.ask(nl)` returned: a `(table, sql)`
pair, or the message of the exception it raised. -/
inductive AskResult where
  | ok (df : DataFrame) (sql : String)
  | err (msg : String)
  deriving DecidableEq, Repr

/-- What the `'Generate SQL'` handler showed the user. -/
inductive GenOutcome where
  | emptyWarn
  | success
  | failure (msg : String)
  deriving DecidableEq, Repr

/-- Python's `str.strip()`. -/
def pyStrip (s : String) : String :=
  String.mk (((s.data.dropWhile Char.isWhitespace).reverse.dropWhile
    Char.isWhitespace).reverse)

/-- The `'Generate SQL'` button handler: clears `success_df`, warns on
a blank question, otherwise calls `agent.ask(nl)`; on success stores
the generated SQL and the dataframe together from the returned pair and
sets `success_sql`; on an exception shows one error and sets
`success_sql` to false.  Also returns the database reads performed. -/
def generateSQL (st : AppState) (nl : String) (ask : AskResult) :
    AppState × GenOutcome × List DBExec :=
  let st1 := { st with success_df := false }
  if pyStrip nl = "" then (st1, .emptyWarn, [])
  else
    match ask with
    | .ok df sql =>
      ({ st1 with generated_sql := some sql, last_df := some df, success_sql := true },
        .success, [.viaAsk nl sql])
    | .err msg => ({ st1 with success_sql := false }, .failure msg, [])

/-- The `'Run generated SQL'` button handler: warns when there is no
generated SQL, otherwise only sets the display flag `success_df` (the
table shown is the stored `last_df`).  No SQL is executed. -/
def runGeneratedSQL (st : AppState) : AppState × List DBExec :=
  match st.generated_sql with
  | none => (st, [])
  | some _ => ({ st with success_df := true }, [])

/-- The UI actions that can touch the database connection. -/
inductive UIAction where
  | quick (choice : String) (res : DataFrame)
  | genSQL (nl : String) (ask : AskResult)
  | runGen

/-- The database reads one UI action performs. -/
def uiExecs (st : AppState) : UIAction → List DBExec
  | .quick choice res => (runQuickQuery st choice res).2
  | .genSQL nl ask => (generateSQL st nl ask).2.2
  | .runGen => (runGeneratedSQL st).2

/-! ### Provider selection and the Router (`llm_router` is not in the
repository's files; its construction contract is modelled from the
spec) -/

/-- The provider selectbox options of `streamlit_app`. -/
def providerOptions : List String := ["qwen", "ntqai", "openai", "anthropic"]

def default_openai : String := "gpt-4o-mini"

def default_anthropic : String := "claude-3-5-sonnet-latest"

def default_qwen : String := "CodeQwen1.5-7B-Chat"

def default_ntqai : String := "Nxcode-CQ-7B-orpo"

/-- The default value of the model text input, per selected provider
(the nested conditional of `streamlit_app`). -/
def modelDefault (provider : String) : String :=
  if provider = "openai" then default_openai
  else if provider = "anthropic" then default_anthropic
  else if provider = "qwen" then default_qwen
  else default_ntqai

/-- Modelled from the spec: the `llm_router.LLMRouter` module is not
under the repository's source files.  Per the spec, Router construction
takes a provider name from the closed set of known providers and a
model name that may be empty; an empty model resolves to the
per-provider default; a provider outside the set fails with
`UnknownProviderError`. -/
def routerResolve (defaults : String → String) (provider model : String) :
    Except String (String × String) :=
  if provider ∈ providerOptions then
    .ok (provider, if model = "" then defaults provider else model)
  else .error "UnknownProviderError"

/-! ### The retry controller (`custom_agent.SmartDataAgent.ask` is not
in the repository's files; its retry loop is modelled from the spec) -/

/-- The outcome of one generation attempt, after validation and
execution: a retryable soft failure (unparsable output, rejected verb
or reference, or an engine error) carrying the attempt's statement and
error text, or a success. -/
inductive AttemptOutcome where
  | softFail (stmt err : String)
  | success (table : DataFrame) (sql : String)

/-- The outcome of a whole `ask()` call. -/
inductive AskOutcome where
  | ok (table : DataFrame) (sql : String)
  | exhausted (lastStmt lastErr : String)
  deriving DecidableEq, Repr

/-- Modelled from the spec: `ask` makes at most 3 total generation
attempts (1 initial + 2 corrective); `gen i` is the outcome of attempt
`i`.  The returned number counts the generation attempts made; when the
third attempt also fails with a retryable failure the call surfaces
`GenerationExhaustedError` (`AskOutcome.exhausted`) carrying the last
statement and last error. -/
def ask (gen : Nat → AttemptOutcome) : Nat × AskOutcome :=
  match gen 1 with
  | .success t s => (1, .ok t s)
  | .softFail _ _ =>
    match gen 2 with
    | .success t s => (2, .ok t s)
    | .softFail _ _ =>
      match gen 3 with
      | .success t s => (3, .ok t s)
      | .softFail st e => (3, .exhausted st e)

/-- An app state before any initialization (no stored keys, empty
strings, connection id 0). -/
def freshState : AppState :=
  { initFlag := false, provider := "", connId := 0, routerProvider := "",
    routerModel := "", df_quick := none, show_quick_viz := false,
    show_viz := false, generated_sql := none, last_df := none,
    success_sql := false, success_df := false }

/-- The session after initializing with provider `"qwen"`, model
`"A"` and connection id 1. -/
def initializedState : AppState :=
  { freshState with
      initFlag := true
      provider := "qwen"
      connId := 1
      routerProvider := "qwen"
      routerModel := "A" }

/-- A generator whose every attempt yields unparsable output. -/
def alwaysUnparsable : Nat → AttemptOutcome :=
  fun _ => .softFail "SELECT x FROM y" "unparsable"

/-- The (statement, error) of each attempt of `alwaysUnparsable`. -/
def alwaysUnparsableLog : Nat → String × String :=
  fun _ => ("SELECT x FROM y", "unparsable")

/-! ## Theorems -/

/-- Helper: a value `qmLookup` finds is one of the map's statements. -/
theorem qmLookup_mem {l : List (String × String)} {c v : String}
    (h : qmLookup l c = some v) : v ∈ l.map Prod.snd := by
  induction l with
  | nil => simp [qmLookup] at h
  | cons kv rest ih =>
    obtain ⟨k, w⟩ := kv
    by_cases hk : k = c
    · simp [qmLookup, hk] at h
      simp [h]
    · simp only [qmLookup, if_neg hk] at h
      simpa using Or.inr (ih h)

/-- C1: every SQL statement the program submits for execution — every
entry of `demo_runner.QUERIES` and of `streamlit_app.QUERY_MAP` — has a
leading verb (the first word after leading whitespace) in {SELECT,
WITH}, and none begins with INSERT, UPDATE, DELETE, DROP or ALTER. -/
theorem queries_leading_verb_allowed :
    (allStatements.all (fun q =>
      (["SELECT", "WITH"] : List String).contains (leadingWord q))) = true ∧
    (allStatements.all (fun q =>
      !(["INSERT", "UPDATE", "DELETE", "DROP", "ALTER"] : List String).contains
        (leadingWord q))) = true := by
  decide

/-- C4: every statement of `QUERIES` and `QUERY_MAP` references only
the `sales` table (directly in `FROM` lists or as a dotted qualifier,
CTEs aside), and every column identifier read from a base table is one
of {date, customer_id, product_category, revenue} (aliases and CTE
columns aside). -/
theorem queries_reference_known_schema :
    allStatements.all stmtOk = true := by
  decide

/-- C2 counterexample: after initializing with provider `"qwen"` and
model `"A"`, a rerun with the same provider but a different entered
model `"B"` leaves the stored session completely unchanged — the stored
router still holds model `"A"` — so the claim that a model change alone
triggers reconstruction is false. -/
theorem session_rebuild_missed_on_model_change :
    initBlock freshState true "qwen" "A" 1 = some initializedState ∧
    initBlock initializedState true "qwen" "B" 2 = some initializedState ∧
    initializedState.routerModel ≠ "B" := by
  decide

/-- C2 amended: after initialization, the stored connection, router and
agent are rebuilt exactly when the selected provider differs from the
stored one; a rerun with an unchanged provider — whatever model is
entered — leaves the stored session unchanged. -/
theorem session_rebuild_iff_provider_change (st : AppState) (dbE : Bool)
    (p m : String) (c : Nat) (hInit : st.initFlag = true) :
    (p = st.provider → initBlock st dbE p m c = some st) ∧
    (p ≠ st.provider → dbE = true →
      initBlock st dbE p m c =
        some { st with
                 connId := c
                 routerProvider := p
                 routerModel := m
                 provider := p
                 initFlag := true }) := by
  constructor
  · intro hp
    simp [initBlock, hInit, hp]
  · intro hp hdb
    simp [initBlock, hInit, hp, hdb]

/-- Witness for the amended C2 at a concrete state. -/
theorem session_rebuild_iff_provider_change_inst :
    ("qwen" = initializedState.provider →
      initBlock initializedState true "qwen" "B" 2 = some initializedState) ∧
    ("qwen" ≠ initializedState.provider → true = true →
      initBlock initializedState true "qwen" "B" 2 =
        some { initializedState with
                 connId := 2
                 routerProvider := "qwen"
                 routerModel := "B"
                 provider := "qwen"
                 initFlag := true }) :=
  session_rebuild_iff_provider_change initializedState true "qwen" "B" 2 (by decide)

/-- C3: the `'Generate SQL'` handler updates `generated_sql` and
`last_df` together from the single pair `ask` returned, and reports
success; on a blank question or an exception it reports a single
failure and leaves both stored values exactly as they were. -/
theorem generate_sql_atomic_update (st : AppState) (nl : String) (res : AskResult) :
    (∃ df sql, res = .ok df sql ∧ (generateSQL st nl res).2.1 = .success ∧
      (generateSQL st nl res).1.generated_sql = some sql ∧
      (generateSQL st nl res).1.last_df = some df) ∨
    ((generateSQL st nl res).2.1 ≠ .success ∧
      (generateSQL st nl res).1.generated_sql = st.generated_sql ∧
      (generateSQL st nl res).1.last_df = st.last_df) := by
  by_cases h : pyStrip nl = ""
  · right
    simp [generateSQL, h]
  · cases res with
    | ok df sql =>
      left
      exact ⟨df, sql, rfl, by simp [generateSQL, h], by simp [generateSQL, h],
        by simp [generateSQL, h]⟩
    | err m =>
      right
      simp [generateSQL, h]

/-- C6 counterexample: the `'Run quick query'` handler executes the
chosen `QUERY_MAP` statement directly against the stored connection
with `pd.read_sql_query`, not through `agent.ask`, so the claim that no
SQL is executed by any path other than `ask` is false. -/
theorem quick_query_executes_directly :
    (runQuickQuery freshState "Revenue by month" []).2 =
      [DBExec.direct "SELECT strftime('%Y-%m', date) AS year_month, SUM(revenue) AS total_revenue FROM sales GROUP BY year_month ORDER BY year_month;"] ∧
    (runQuickQuery freshState "Revenue by month" []).2.all isViaAsk = false := by
  decide

/-- C6 amended: every database read the UI performs comes either from
the single entry point `agent.ask(nl)` (the `'Generate SQL'` handler)
or from the `'Run quick query'` handler directly executing one of the
six fixed `QUERY_MAP` statements; no other handler executes SQL. -/
theorem ui_reads_via_ask_or_query_map (st : AppState) (a : UIAction) (e : DBExec)
    (he : e ∈ uiExecs st a) :
    (∃ nl sql, e = .viaAsk nl sql) ∨
    (∃ sql, e = .direct sql ∧ sql ∈ QUERY_MAP.map Prod.snd) := by
  cases a with
  | quick choice res =>
    simp only [uiExecs, runQuickQuery] at he
    cases hq : qmLookup QUERY_MAP choice with
    | none => rw [hq] at he; simp at he
    | some sql =>
      rw [hq] at he
      simp at he
      exact Or.inr ⟨sql, he, qmLookup_mem hq⟩
  | genSQL nl res =>
    simp only [uiExecs, generateSQL] at he
    by_cases h : pyStrip nl = ""
    · rw [if_pos h] at he
      simp at he
    · rw [if_neg h] at he
      cases res with
      | ok df sql =>
        simp at he
        exact Or.inl ⟨nl, sql, he⟩
      | err m => simp at he
  | runGen =>
    cases hg : st.generated_sql <;> simp [uiExecs, runGeneratedSQL, hg] at he

/-- Witness for the amended C6 at a concrete action. -/
theorem ui_reads_via_ask_or_query_map_inst :
    (∃ nl sql, DBExec.direct "SELECT strftime('%Y-%m', date) AS year_month, SUM(revenue) AS total_revenue FROM sales GROUP BY year_month ORDER BY year_month;" = DBExec.viaAsk nl sql) ∨
    (∃ sql, DBExec.direct "SELECT strftime('%Y-%m', date) AS year_month, SUM(revenue) AS total_revenue FROM sales GROUP BY year_month ORDER BY year_month;" = DBExec.direct sql ∧
      sql ∈ QUERY_MAP.map Prod.snd) :=
  ui_reads_via_ask_or_query_map freshState (.quick "Revenue by month" [])
    (.direct "SELECT strftime('%Y-%m', date) AS year_month, SUM(revenue) AS total_revenue FROM sales GROUP BY year_month ORDER BY year_month;") (by decide)

/-- C5: the provider offered to `LLMRouter` always comes from the
closed four-name set; the visible caller's per-provider model defaults
are the four fixed names; and the (spec-modelled) Router resolves an
empty model to the provider's default and keeps a nonempty model. -/
theorem router_provider_model_defaults (p m : String) (hp : p ∈ providerOptions) :
    modelDefault "openai" = "gpt-4o-mini" ∧
    modelDefault "anthropic" = "claude-3-5-sonnet-latest" ∧
    modelDefault "qwen" = "CodeQwen1.5-7B-Chat" ∧
    modelDefault "ntqai" = "Nxcode-CQ-7B-orpo" ∧
    routerResolve modelDefault p "" = .ok (p, modelDefault p) ∧
    (m ≠ "" → routerResolve modelDefault p m = .ok (p, m)) ∧
    p ∈ (["qwen", "ntqai", "openai", "anthropic"] : List String) := by
  refine ⟨by decide, by decide, by decide, by decide, ?_, ?_, hp⟩
  · simp [routerResolve, hp]
  · intro hm
    simp [routerResolve, hp, hm]

/-- Witness for C5 at provider `"openai"` and model `"x"`. -/
theorem router_provider_model_defaults_inst :
    modelDefault "openai" = "gpt-4o-mini" ∧
    modelDefault "anthropic" = "claude-3-5-sonnet-latest" ∧
    modelDefault "qwen" = "CodeQwen1.5-7B-Chat" ∧
    modelDefault "ntqai" = "Nxcode-CQ-7B-orpo" ∧
    routerResolve modelDefault "openai" "" = .ok ("openai", modelDefault "openai") ∧
    ("x" ≠ "" → routerResolve modelDefault "openai" "x" = .ok ("openai", "x")) ∧
    "openai" ∈ (["qwen", "ntqai", "openai", "anthropic"] : List String) :=
  router_provider_model_defaults "openai" "x" (by decide)

/-- C7: within one `ask()` call the number of generation attempts is at
most 3; and a generator whose every attempt fails with a retryable
failure makes exactly 3 attempts and surfaces
`GenerationExhaustedError` carrying the last (third) statement and
error. -/
theorem ask_retry_bound (gen : Nat → AttemptOutcome) (stf : Nat → String × String)
    (h : ∀ i, gen i = .softFail (stf i).1 (stf i).2) :
    (∀ g : Nat → AttemptOutcome, (ask g).1 ≤ 3) ∧
    ask gen = (3, .exhausted (stf 3).1 (stf 3).2) := by
  constructor
  · intro g
    unfold ask
    rcases h1 : g 1 with _ | _
    · rcases h2 : g 2 with _ | _
      · rcases h3 : g 3 with _ | _ <;> simp
      · simp
    · simp
  · unfold ask
    rw [h 1, h 2, h 3]

/-- Witness for C7: an always-unparsable generator makes exactly 3
attempts and exhausts. -/
theorem ask_retry_bound_inst :
    (∀ g : Nat → AttemptOutcome, (ask g).1 ≤ 3) ∧
    ask alwaysUnparsable =
      (3, .exhausted (alwaysUnparsableLog 3).1 (alwaysUnparsableLog 3).2) :=
  ask_retry_bound alwaysUnparsable alwaysUnparsableLog (fun _ => rfl)

/-- C8: for any contents of the `sales` table, the result of
`QUERIES['top5_customers']` has at most 5 rows, at most one row per
distinct customer_id, and its rows are ordered by total_revenue
non-increasingly. -/
theorem top5_customers_shape (rows : List SalesRow) :
    (top5_customers_eval rows).length ≤ 5 ∧
    ((top5_customers_eval rows).map Prod.fst).Nodup ∧
    (top5_customers_eval rows).Sorted keyGE := by
  refine ⟨List.length_take_le 5 _, ?_, ?_⟩
  · have hperm := (List.perm_insertionSort keyGE (groupTotals rows)).map Prod.fst
    have hnd : ((groupTotals rows).map Prod.fst).Nodup := by
      have hmap : (groupTotals rows).map Prod.fst =
          (rows.map SalesRow.customer_id).dedup := by
        unfold groupTotals
        rw [List.map_map]
        change List.map id _ = _
        exact List.map_id _
      rw [hmap]
      exact List.nodup_dedup _
    have hnd2 := hperm.symm.nodup hnd
    have hmt : (top5_customers_eval rows).map Prod.fst =
        ((List.insertionSort keyGE (groupTotals rows)).map Prod.fst).take 5 := by
      simp [top5_customers_eval, List.map_take]
    rw [hmt]
    exact List.Nodup.sublist (List.take_sublist 5 _) hnd2
  · exact List.Pairwise.sublist (List.take_sublist 5 _)
      (List.sorted_insertionSort keyGE (groupTotals rows))

/-- C9: when `sales_demo.db` does not exist, `demo_runner.main` raises
`FileNotFoundError` having performed no effect: no connection opened,
no query executed, no file written. -/
theorem main_fails_fast_without_db (isEmpty : String → Bool) :
    (mainTrace false isEmpty).1 = [] ∧
    (mainTrace false isEmpty).2 =
      some "sales_demo.db not found. Build it before running." := by
  constructor <;> rfl

/-- C10: the `'Run generated SQL'` handler performs no database read:
it leaves `last_df`, `generated_sql` and the stored connection
unchanged, and at most sets the display flag `success_df` (which it
does set whenever a generated statement is stored). -/
theorem run_generated_sql_no_exec (st : AppState) :
    (runGeneratedSQL st).2 = [] ∧
    (runGeneratedSQL st).1.last_df = st.last_df ∧
    (runGeneratedSQL st).1.generated_sql = st.generated_sql ∧
    (runGeneratedSQL st).1.connId = st.connId ∧
    (st.generated_sql ≠ none → (runGeneratedSQL st).1.success_df = true) ∧
    ((runGeneratedSQL st).1 = st ∨
      (runGeneratedSQL st).1 = { st with success_df := true }) := by
  cases hg : st.generated_sql <;> simp [runGeneratedSQL, hg]

end SmartData
